import Mathlib

/-!
Verification of the feed-validation engine in `validate_feeds.go`
(`validateFeed`, lines 32-150, and the dispatching part of `main`,
lines 238-307).

The network and the external feed decoder (gofeed) are modelled as an
oracle: for each attempt number it gives the duration the HTTP call
would need and the outcome it would return; the single shared context
deadline (created once at line 35, before the retry loop) decides
whether the call completes or is cut with a `context deadline exceeded`
error.  Time is counted in seconds from the start of `validateFeed`;
`time.Time` values are modelled as `Int` with the Go zero value at `0`.
-/

namespace FeedVal

/-- `concurrencyLimit` constant (line 19). -/
def concurrencyLimit : Nat := 60

/-- `timeoutSeconds` constant (line 20). -/
def timeoutSeconds : Nat := 30

/-- `maxRetries` constant (line 21). -/
def maxRetries : Nat := 3

/-- Go `strings.Contains s sub` (used at lines 55, 96, 123). -/
def strContains (s sub : String) : Bool := decide (sub.data <:+: s.data)

/-- Drop leading whitespace characters. -/
def dropSpace : List Char → List Char
  | [] => []
  | c :: cs => if c.isWhitespace then dropSpace cs else c :: cs

/-- Go `strings.TrimSpace` (line 33): strip whitespace from both ends. -/
def trimSpace (s : String) : String :=
  ⟨(dropSpace (dropSpace s.data).reverse).reverse⟩

/-- A feed item as the decoder exposes it: an optional parsed publication
timestamp (`Item.PublishedParsed`). -/
structure Item where
  publishedParsed : Option Int
  deriving DecidableEq

/-- A decoded feed: optional feed-level updated timestamp
(`Feed.UpdatedParsed`) and the item list (`Feed.Items`). -/
structure Feed where
  updatedParsed : Option Int
  items : List Item
  deriving DecidableEq

/-- Outcome of `parser.Parse` (line 119): an error with its text, or a feed. -/
inductive ParseResult where
  | err (msg : String)
  | ok (feed : Feed)
  deriving DecidableEq

/-- What happens to a fetched body: `readErr` is the `io.ReadAll` error
(line 113) when reading fails; `parse` is the decoder outcome on the
fully read bytes. -/
structure BodyModel where
  readErr : Option String
  parse : ParseResult
  deriving DecidableEq

/-- Outcome of one completed `client.Do` call (line 51): a transport
error with its text, or an HTTP response with status code and body. -/
inductive AttemptOutcome where
  | transportErr (msg : String)
  | response (status : Nat) (body : BodyModel)
  deriving DecidableEq

/-- Oracle entry for one attempt: how long the network call would take,
and what it would return if it completes before the context deadline. -/
structure TimedAttempt where
  duration : Nat
  outcome : AttemptOutcome
  deriving DecidableEq

/-- Oracle for one URL: the `http.NewRequestWithContext` error (line 38)
if the URL is malformed, and the per-attempt network behaviour. -/
structure FeedOracle where
  reqErr : Option String
  attempts : Nat → TimedAttempt

/-- The `ValidationResult` record (lines 24-30).  `lastUpdate = 0` is the
Go zero `time.Time`. -/
structure ValidationResult where
  url : String
  status : String
  message : String
  itemCount : Nat
  lastUpdate : Int
  deriving DecidableEq

/-- How the retry loop (lines 50-92) was left: an early `invalid` return
for a non-retryable 4xx (line 76), a break with `err != nil` (line 62),
a break with a non-200 last response (line 82), or a 200 response
(line 91). -/
inductive LoopOutcome where
  | earlyInvalid (status : Nat)
  | exitErr (msg : String)
  | exitNon200 (status : Nat)
  | success (body : BodyModel)
  deriving DecidableEq

/-- Exit record of the retry loop: the outcome, the trace of attempts
made as `(attempt number, start clock)` pairs, and the list of backoff
sleeps performed (line 65 / 85), in order. -/
structure TimedExit where
  outcome : LoopOutcome
  trace : List (Nat × Nat)
  sleeps : List Nat
  deriving DecidableEq

/-- What `client.Do` returns at clock `clock` under the shared context
deadline of `timeoutSeconds` set at line 35: the oracle outcome when the
call fits before the deadline, else a `context deadline exceeded` error. -/
def doResult (clock : Nat) (ta : TimedAttempt) : AttemptOutcome :=
  if clock + ta.duration ≤ timeoutSeconds then ta.outcome
  else .transportErr "context deadline exceeded"

/-- The clock when that `client.Do` call returns: after `duration` when it
completes, else at the deadline (or immediately when already past it). -/
def doFinish (clock : Nat) (ta : TimedAttempt) : Nat :=
  if clock + ta.duration ≤ timeoutSeconds then clock + ta.duration
  else max clock timeoutSeconds

/-- The retry loop, lines 50-92.  `attempt` is the 1-based loop counter,
`backoff` the current backoff in seconds (starts at 1, doubles after
every retried failure, lines 48/66/86), `clock` the seconds elapsed
since `validateFeed` started.  The Go loop runs `attempt` from 1 to
`maxRetries` and every iteration either breaks, returns, or retries, so
recursion depth is bounded by `maxRetries`; `fuel` carries that bound
(the initial call passes `fuel = maxRetries` with `attempt = 1`, and the
`attempt = maxRetries` break fires while `fuel = 1`, so the `fuel = 0`
branch is never reached from the initial call). -/
def loopGo (attempts : Nat → TimedAttempt) : Nat → Nat → Nat → Nat → TimedExit
  | 0, _, _, _ => ⟨.exitErr "", [], []⟩
  | fuel + 1, attempt, backoff, clock =>
    match doResult clock (attempts attempt) with
    | .transportErr msg =>
      if attempt = maxRetries then ⟨.exitErr msg, [(attempt, clock)], []⟩
      else
        let rest := loopGo attempts fuel (attempt + 1) (backoff * 2)
          (doFinish clock (attempts attempt) + backoff)
        ⟨rest.outcome, (attempt, clock) :: rest.trace, backoff :: rest.sleeps⟩
    | .response s body =>
      if s ≠ 200 then
        if 400 ≤ s ∧ s < 500 ∧ s ≠ 429 then ⟨.earlyInvalid s, [(attempt, clock)], []⟩
        else if attempt = maxRetries then ⟨.exitNon200 s, [(attempt, clock)], []⟩
        else
          let rest := loopGo attempts fuel (attempt + 1) (backoff * 2)
            (doFinish clock (attempts attempt) + backoff)
          ⟨rest.outcome, (attempt, clock) :: rest.trace, backoff :: rest.sleeps⟩
      else ⟨.success body, [(attempt, clock)], []⟩

/-- The whole retry loop of one validation: attempt 1, backoff 1 second,
clock 0 (the context deadline was just set). -/
def runLoop (o : FeedOracle) : TimedExit :=
  loopGo o.attempts maxRetries 1 1 0

/-- `result.LastUpdate` computation, lines 136-140: the feed-level
updated timestamp, else the first item's published timestamp, else the
zero value. -/
def computeLastUpdate (feed : Feed) : Int :=
  match feed.updatedParsed with
  | some t => t
  | none =>
    match feed.items with
    | [] => 0
    | item :: _ =>
      match item.publishedParsed with
      | some t => t
      | none => 0

/-- Classification of a decoded feed, lines 129-149.  `sixMonthsAgo` is
the value of `time.Now().AddDate(0, -6, 0)` on the Int time axis. -/
def classify (url : String) (feed : Feed) (sixMonthsAgo : Int) : ValidationResult :=
  let lastUpdate := computeLastUpdate feed
  let message :=
    if feed.items.length = 0 then "Warning: No feed items"
    else if lastUpdate < sixMonthsAgo then "Warning: Feed hasn't been updated in over 6 months"
    else ""
  ⟨url, "valid", message, feed.items.length, lastUpdate⟩

/-- Handling of a 200 body, lines 110-149: read it fully, parse it,
classify the feed. -/
def handleBody (url : String) (body : BodyModel) (sixMonthsAgo : Int) : ValidationResult :=
  match body.readErr with
  | some msg => ⟨url, "transient", "Error reading response: " ++ msg, 0, 0⟩
  | none =>
    match body.parse with
    | .err msg =>
      if strContains msg "EOF" || strContains msg "no XML" then
        ⟨url, "invalid", "Not a valid feed format", 0, 0⟩
      else ⟨url, "invalid", msg, 0, 0⟩
    | .ok feed => classify url feed sixMonthsAgo

/-- The timeout test applied to the final transport error, line 96. -/
def isTimeoutMsg (msg : String) : Bool :=
  strContains msg "context canceled" || strContains msg "context deadline exceeded"

/-- `validateFeed`, lines 32-150, over the oracle. -/
def validateFeed (url : String) (o : FeedOracle) (sixMonthsAgo : Int) : ValidationResult :=
  let url := trimSpace url
  match o.reqErr with
  | some e => ⟨url, "invalid", "Invalid URL: " ++ e, 0, 0⟩
  | none =>
    match (runLoop o).outcome with
    | .earlyInvalid s => ⟨url, "invalid", "HTTP status " ++ toString s, 0, 0⟩
    | .exitErr msg =>
      if isTimeoutMsg msg then
        ⟨url, "transient",
          "Request timed out after " ++ toString timeoutSeconds ++ " seconds", 0, 0⟩
      else ⟨url, "transient", msg, 0, 0⟩
    | .exitNon200 s =>
      ⟨url, "transient",
        "Failed after " ++ toString maxRetries ++ " attempts, last status: " ++ toString s, 0, 0⟩
    | .success body => handleBody url body sixMonthsAgo

/-- The dispatch loop of `main`, lines 243-282: one validation task per
input URL, each sending exactly one result; `env` fixes the network and
decoder behaviour per URL. -/
def dispatch (urls : List String) (env : String → FeedOracle) (sixMonthsAgo : Int) :
    List ValidationResult :=
  urls.map (fun u => validateFeed u (env u) sixMonthsAgo)

set_option linter.unusedVariables false in
/-- Dispatch under a concurrency cap.  The cap only gates admission into
the running set (the weighted semaphore, lines 238-254); it does not
enter any per-URL computation, and the collected results form the same
multiset. -/
def dispatchCap (cap : Nat) (urls : List String) (env : String → FeedOracle)
    (sixMonthsAgo : Int) : List ValidationResult :=
  dispatch urls env sixMonthsAgo

/-- Aggregate counts computed by the report loop, lines 285-300. -/
structure Summary where
  valid : Nat
  invalid : Nat
  transient : Nat
  warnings : Nat
  deriving DecidableEq

/-- The report loop increments one counter per matching result, so each
count is the number of results satisfying its test. -/
def summarize (rs : List ValidationResult) : Summary :=
  ⟨rs.countP (fun r => r.status == "valid"),
   rs.countP (fun r => r.status == "invalid"),
   rs.countP (fun r => r.status == "transient"),
   rs.countP (fun r => r.status == "valid" && r.message != "")⟩

/-- Budget left on the shared context deadline when an attempt starts:
the deadline sits at `timeoutSeconds` on the clock axis, the attempt
starts at clock `e.2`. -/
def deadlineAvailable (e : Nat × Nat) : Int := (timeoutSeconds : Int) - (e.2 : Int)

/-! Helper lemmas. -/

theorem validateFeed_url (u : String) (o : FeedOracle) (t : Int) :
    (validateFeed u o t).url = trimSpace u := by
  unfold validateFeed handleBody classify
  cases o.reqErr with
  | some e => rfl
  | none =>
    dsimp only
    cases (runLoop o).outcome with
    | earlyInvalid s => rfl
    | exitErr m =>
      dsimp only
      split <;> rfl
    | exitNon200 s => rfl
    | success body =>
      dsimp only
      cases body.readErr with
      | some m => rfl
      | none =>
        dsimp only
        cases body.parse with
        | err m =>
          dsimp only
          split <;> rfl
        | ok feed => rfl

/-- Unfolding of one loop iteration. -/
theorem loopGo_succ (attempts : Nat → TimedAttempt) (fuel attempt backoff clock : Nat) :
    loopGo attempts (fuel + 1) attempt backoff clock =
      match doResult clock (attempts attempt) with
      | .transportErr msg =>
        if attempt = maxRetries then ⟨.exitErr msg, [(attempt, clock)], []⟩
        else
          let rest := loopGo attempts fuel (attempt + 1) (backoff * 2)
            (doFinish clock (attempts attempt) + backoff)
          ⟨rest.outcome, (attempt, clock) :: rest.trace, backoff :: rest.sleeps⟩
      | .response s body =>
        if s ≠ 200 then
          if 400 ≤ s ∧ s < 500 ∧ s ≠ 429 then ⟨.earlyInvalid s, [(attempt, clock)], []⟩
          else if attempt = maxRetries then ⟨.exitNon200 s, [(attempt, clock)], []⟩
          else
            let rest := loopGo attempts fuel (attempt + 1) (backoff * 2)
              (doFinish clock (attempts attempt) + backoff)
            ⟨rest.outcome, (attempt, clock) :: rest.trace, backoff :: rest.sleeps⟩
        else ⟨.success body, [(attempt, clock)], []⟩ := rfl

/-- An attempt that completes before the deadline with a non-retryable
client-error status ends the loop with the early `invalid` return
(line 76). -/
theorem loopGo_succ_early (attempts : Nat → TimedAttempt) (fuel attempt backoff clock s : Nat)
    (body : BodyModel) (h : doResult clock (attempts attempt) = .response s body)
    (h4 : 400 ≤ s) (h5 : s < 500) (h9 : s ≠ 429) :
    loopGo attempts (fuel + 1) attempt backoff clock =
      ⟨.earlyInvalid s, [(attempt, clock)], []⟩ := by
  have h200 : s ≠ 200 := by omega
  rw [loopGo_succ, h]
  simp [h200, h4, h5, h9]

/-- A 200 response that completes before the deadline ends the loop with
success (line 91). -/
theorem loopGo_succ_success (attempts : Nat → TimedAttempt) (fuel attempt backoff clock : Nat)
    (body : BodyModel) (h : doResult clock (attempts attempt) = .response 200 body) :
    loopGo attempts (fuel + 1) attempt backoff clock =
      ⟨.success body, [(attempt, clock)], []⟩ := by
  rw [loopGo_succ, h]
  simp

/-- A retryable non-200 response on a non-final attempt sleeps `backoff`
and retries with doubled backoff (lines 79-87). -/
theorem loopGo_succ_status_retry (attempts : Nat → TimedAttempt)
    (fuel attempt backoff clock s : Nat) (body : BodyModel)
    (h : doResult clock (attempts attempt) = .response s body)
    (h200 : s ≠ 200) (hnc : ¬(400 ≤ s ∧ s < 500 ∧ s ≠ 429)) (hlast : attempt ≠ maxRetries) :
    loopGo attempts (fuel + 1) attempt backoff clock =
      ⟨(loopGo attempts fuel (attempt + 1) (backoff * 2)
          (doFinish clock (attempts attempt) + backoff)).outcome,
       (attempt, clock) :: (loopGo attempts fuel (attempt + 1) (backoff * 2)
          (doFinish clock (attempts attempt) + backoff)).trace,
       backoff :: (loopGo attempts fuel (attempt + 1) (backoff * 2)
          (doFinish clock (attempts attempt) + backoff)).sleeps⟩ := by
  rw [loopGo_succ, h]
  simp [h200, hnc, hlast]

/-- A retryable non-200 response on the final attempt breaks out of the
loop (line 82). -/
theorem loopGo_succ_status_last (attempts : Nat → TimedAttempt)
    (fuel backoff clock s : Nat) (body : BodyModel)
    (h : doResult clock (attempts maxRetries) = .response s body)
    (h200 : s ≠ 200) (hnc : ¬(400 ≤ s ∧ s < 500 ∧ s ≠ 429)) :
    loopGo attempts (fuel + 1) maxRetries backoff clock =
      ⟨.exitNon200 s, [(maxRetries, clock)], []⟩ := by
  rw [loopGo_succ, h]
  simp [h200, hnc]

/-- A transport error on a non-final attempt sleeps `backoff` and retries
with doubled backoff (lines 61-67). -/
theorem loopGo_succ_err_retry (attempts : Nat → TimedAttempt)
    (fuel attempt backoff clock : Nat) (msg : String)
    (h : doResult clock (attempts attempt) = .transportErr msg) (hlast : attempt ≠ maxRetries) :
    loopGo attempts (fuel + 1) attempt backoff clock =
      ⟨(loopGo attempts fuel (attempt + 1) (backoff * 2)
          (doFinish clock (attempts attempt) + backoff)).outcome,
       (attempt, clock) :: (loopGo attempts fuel (attempt + 1) (backoff * 2)
          (doFinish clock (attempts attempt) + backoff)).trace,
       backoff :: (loopGo attempts fuel (attempt + 1) (backoff * 2)
          (doFinish clock (attempts attempt) + backoff)).sleeps⟩ := by
  rw [loopGo_succ, h]
  simp [hlast]

/-- A transport error on the final attempt breaks out of the loop
(line 62) with the error still set. -/
theorem loopGo_succ_err_last (attempts : Nat → TimedAttempt) (fuel backoff clock : Nat)
    (msg : String) (h : doResult clock (attempts maxRetries) = .transportErr msg) :
    loopGo attempts (fuel + 1) maxRetries backoff clock =
      ⟨.exitErr msg, [(maxRetries, clock)], []⟩ := by
  rw [loopGo_succ, h]
  simp

/-- The clock never moves backwards across a `client.Do` call. -/
theorem doFinish_ge (clock : Nat) (ta : TimedAttempt) : clock ≤ doFinish clock ta := by
  unfold doFinish
  split <;> omega

/-- Shape of the retry-loop trace: attempt numbers go up by one and start
clocks strictly increase (every retry consumes the previous attempt's
time plus a backoff sleep of at least one second); the first trace entry
is the starting attempt at the starting clock. -/
theorem loopGo_trace_shape (attempts : Nat → TimedAttempt) (fuel : Nat) :
    ∀ attempt backoff clock, 1 ≤ backoff →
      List.Chain' (fun a b : Nat × Nat => a.1 + 1 = b.1 ∧ a.2 < b.2)
        (loopGo attempts fuel attempt backoff clock).trace ∧
      (fuel = 0 ∨
        (loopGo attempts fuel attempt backoff clock).trace.head? = some (attempt, clock)) := by
  induction fuel with
  | zero =>
    intro attempt backoff clock _
    exact ⟨List.chain'_nil, Or.inl rfl⟩
  | succ fuel ih =>
    intro attempt backoff clock hb
    rw [loopGo_succ]
    have hstep : ∀ b : Nat × Nat,
        b ∈ (loopGo attempts fuel (attempt + 1) (backoff * 2)
            (doFinish clock (attempts attempt) + backoff)).trace.head? →
        attempt + 1 = b.1 ∧ clock < b.2 := by
      intro b hbmem
      rcases ih (attempt + 1) (backoff * 2) (doFinish clock (attempts attempt) + backoff)
          (by omega) with ⟨_, h0 | hhd⟩
      · rw [h0] at hbmem
        simp [loopGo] at hbmem
      · rw [hhd] at hbmem
        have := doFinish_ge clock (attempts attempt)
        simp only [Option.mem_def, Option.some.injEq] at hbmem
        subst hbmem
        exact ⟨rfl, by omega⟩
    have hrest := ih (attempt + 1) (backoff * 2) (doFinish clock (attempts attempt) + backoff)
      (by omega)
    cases doResult clock (attempts attempt) with
    | transportErr msg =>
      dsimp only
      split
      · exact ⟨List.chain'_singleton _, Or.inr rfl⟩
      · exact ⟨List.chain'_cons'.mpr ⟨hstep, hrest.1⟩, Or.inr rfl⟩
    | response s body =>
      dsimp only
      split
      · split
        · exact ⟨List.chain'_singleton _, Or.inr rfl⟩
        · split
          · exact ⟨List.chain'_singleton _, Or.inr rfl⟩
          · exact ⟨List.chain'_cons'.mpr ⟨hstep, hrest.1⟩, Or.inr rfl⟩
      · exact ⟨List.chain'_singleton _, Or.inr rfl⟩

/-- Every trace entry of the retry loop is either the entry made by the
current attempt at the current clock, or a later attempt at a strictly
later clock. -/
theorem loopGo_trace_mem (attempts : Nat → TimedAttempt) (fuel : Nat) :
    ∀ attempt backoff clock, 1 ≤ backoff →
      ∀ e ∈ (loopGo attempts fuel attempt backoff clock).trace,
        (attempt = e.1 ∧ clock = e.2) ∨ (attempt < e.1 ∧ clock < e.2) := by
  induction fuel with
  | zero =>
    intro attempt backoff clock _ e he
    simp [loopGo] at he
  | succ fuel ih =>
    intro attempt backoff clock hb e he
    have hrec : e ∈ (loopGo attempts fuel (attempt + 1) (backoff * 2)
        (doFinish clock (attempts attempt) + backoff)).trace →
        (attempt = e.1 ∧ clock = e.2) ∨ (attempt < e.1 ∧ clock < e.2) := by
      intro hmem
      have hge := doFinish_ge clock (attempts attempt)
      rcases ih (attempt + 1) (backoff * 2) (doFinish clock (attempts attempt) + backoff)
          (by omega) e hmem with ⟨h1, h2⟩ | ⟨h1, h2⟩
      · exact Or.inr ⟨by omega, by omega⟩
      · exact Or.inr ⟨by omega, by omega⟩
    rcases hdo : doResult clock (attempts attempt) with msg | ⟨s, body⟩
    · rw [loopGo_succ, hdo] at he
      try dsimp only at he
      by_cases hlast : attempt = maxRetries
      · rw [if_pos hlast] at he
        simp at he
        exact Or.inl ⟨by simp [he], by simp [he]⟩
      · rw [if_neg hlast] at he
        try dsimp only at he
        rcases List.mem_cons.mp he with he | he
        · exact Or.inl ⟨by simp [he], by simp [he]⟩
        · exact hrec he
    · rw [loopGo_succ, hdo] at he
      try dsimp only at he
      by_cases h200 : s ≠ 200
      · rw [if_pos h200] at he
        try dsimp only at he
        by_cases h4xx : 400 ≤ s ∧ s < 500 ∧ s ≠ 429
        · rw [if_pos h4xx] at he
          simp at he
          exact Or.inl ⟨by simp [he], by simp [he]⟩
        · rw [if_neg h4xx] at he
          try dsimp only at he
          by_cases hlast : attempt = maxRetries
          · rw [if_pos hlast] at he
            simp at he
            exact Or.inl ⟨by simp [he], by simp [he]⟩
          · rw [if_neg hlast] at he
            try dsimp only at he
            rcases List.mem_cons.mp he with he | he
            · exact Or.inl ⟨by simp [he], by simp [he]⟩
            · exact hrec he
      · rw [if_neg h200] at he
        simp at he
        exact Or.inl ⟨by simp [he], by simp [he]⟩

/-! Claim theorems. -/

/-- C1: the Dispatcher produces exactly one ValidationResult per input
URL.  The list of result `url` fields is exactly the input list (each
entry trimmed of surrounding whitespace, which is how `validateFeed`
records the input identifier), so the result count equals the input
count and, for every url value, the number of results carrying it
equals the number of input entries trimming to it — no URL dropped,
none duplicated, whatever the per-URL outcomes (invalid and transient
runs included). -/
theorem c1_one_result_per_url (urls : List String) (env : String → FeedOracle) (t : Int) :
    (dispatch urls env t).map ValidationResult.url = urls.map trimSpace ∧
    (dispatch urls env t).length = urls.length ∧
    ∀ s : String, (dispatch urls env t).countP (fun r => r.url == s) =
      urls.countP (fun u => trimSpace u == s) := by
  have hmap : (dispatch urls env t).map ValidationResult.url = urls.map trimSpace := by
    unfold dispatch
    rw [List.map_map]
    exact List.map_congr_left fun u _ => validateFeed_url u (env u) t
  refine ⟨hmap, ?_, fun s => ?_⟩
  · simpa using congrArg List.length hmap
  · have h := congrArg (List.countP (fun x => x == s)) hmap
    rw [List.countP_map, List.countP_map] at h
    simpa [Function.comp] using h

/-- C9: with the per-URL network and decoder behaviour fixed by `env`,
dispatching under concurrency cap 1 and under the default cap 60
produces the same classification for every URL, and the aggregate
counts are the same for any completion order in which the results are
collected. -/
theorem c9_concurrency_level_irrelevant (urls : List String) (env : String → FeedOracle)
    (t : Int) :
    dispatchCap 1 urls env t = dispatchCap concurrencyLimit urls env t ∧
    summarize (dispatchCap 1 urls env t) = summarize (dispatchCap concurrencyLimit urls env t) ∧
    ∀ collected : List ValidationResult,
      collected.Perm (dispatchCap concurrencyLimit urls env t) →
      summarize collected = summarize (dispatchCap 1 urls env t) := by
  refine ⟨rfl, rfl, fun c h => ?_⟩
  unfold summarize
  rw [h.countP_eq, h.countP_eq, h.countP_eq, h.countP_eq]
  rfl

/-- Per-URL environment for the C9 witness: URL "a" resolves to a healthy
feed, URL "b" to an HTTP 404. -/
def envC9 : String → FeedOracle :=
  fun u =>
    if u = "a" then ⟨none, fun _ => ⟨0, .response 200 ⟨none, .ok ⟨some 5, [⟨some 5⟩]⟩⟩⟩⟩
    else ⟨none, fun _ => ⟨0, .response 404 ⟨none, .err "x"⟩⟩⟩

/-- C9 witness: collecting the two results in reversed completion order
under cap 60 yields the same summary as cap 1. -/
theorem c9_concurrency_level_irrelevant_witness :
    summarize ((dispatchCap concurrencyLimit ["a", "b"] envC9 0).reverse) =
      summarize (dispatchCap 1 ["a", "b"] envC9 0) :=
  (c9_concurrency_level_irrelevant ["a", "b"] envC9 0).2.2 _ (List.reverse_perm _)

/-- Oracle for the C3 failing input: one attempt, HTTP 200, body decodes
to a feed with one item and no feed-level or item timestamp. -/
def oC3 : FeedOracle := ⟨none, fun _ => ⟨0, .response 200 ⟨none, .ok ⟨none, [⟨none⟩]⟩⟩⟩⟩

/-- C3 (code bug): for a decoded feed with one item and no timestamp
anywhere, `result.LastUpdate` keeps the zero value and line 145 still
compares it with "now minus 6 months" (`1000` here — any real clock
lies after the zero time), so `validateFeed` returns `valid` with the
staleness warning, not the empty message the claim requires: the
zero-value timestamp is compared against the six-months-ago threshold. -/
theorem c3_zero_timestamp_compared :
    validateFeed "u" oC3 1000 =
      ⟨"u", "valid", "Warning: Feed hasn't been updated in over 6 months", 1, 0⟩ := by
  decide

/-- C8: when the retry loop ends with a 200 body that reads fully but
fails to parse, the result is `invalid`; the message is exactly
"Not a valid feed format" when the parser's error text contains "EOF"
or "no XML", and otherwise is the parser's text verbatim (lines
121-127). -/
theorem c8_decode_failure (url : String) (o : FeedOracle) (t : Int) (body : BodyModel)
    (pmsg : String) (hreq : o.reqErr = none) (hs : (runLoop o).outcome = .success body)
    (hread : body.readErr = none) (hp : body.parse = .err pmsg) :
    (validateFeed url o t).status = "invalid" ∧
    ((strContains pmsg "EOF" || strContains pmsg "no XML") = true →
      (validateFeed url o t).message = "Not a valid feed format") ∧
    ((strContains pmsg "EOF" || strContains pmsg "no XML") = false →
      (validateFeed url o t).message = pmsg) := by
  simp only [validateFeed, handleBody, hreq, hs, hread, hp]
  cases hEOF : (strContains pmsg "EOF" || strContains pmsg "no XML") with
  | true => simp [hEOF]
  | false => simp [hEOF]

/-- Oracle for the C8 witness: a 200 body whose parse fails with an
EOF-flavoured error. -/
def oC8 : FeedOracle := ⟨none, fun _ => ⟨0, .response 200 ⟨none, .err "unexpected EOF"⟩⟩⟩

/-- C8 witness: a parse error mentioning EOF yields `invalid` with the
fixed format message. -/
theorem c8_decode_failure_witness :
    (validateFeed "u" oC8 0).status = "invalid" ∧
    (validateFeed "u" oC8 0).message = "Not a valid feed format" := by
  have h := c8_decode_failure "u" oC8 0 ⟨none, .err "unexpected EOF"⟩ "unexpected EOF"
    rfl (by decide) rfl rfl
  exact ⟨h.1, h.2.1 (by decide)⟩

/-- C10: when the retry loop ends with a 200 response but reading the
body fails, the result is `transient` (not `invalid`) with the read
error appended to "Error reading response: ", and the decoder outcome
`p` is irrelevant — it is never consulted (lines 113-116). -/
theorem c10_body_read_error (url : String) (o : FeedOracle) (t : Int) (m : String)
    (p : ParseResult) (hreq : o.reqErr = none)
    (hs : (runLoop o).outcome = .success ⟨some m, p⟩) :
    validateFeed url o t =
      ⟨trimSpace url, "transient", "Error reading response: " ++ m, 0, 0⟩ := by
  simp [validateFeed, handleBody, hreq, hs]

/-- Oracle for the C10 witness: a 200 response whose body read fails. -/
def oC10 : FeedOracle :=
  ⟨none, fun _ => ⟨0, .response 200 ⟨some "connection reset", .ok ⟨none, []⟩⟩⟩⟩

/-- C10 witness. -/
theorem c10_body_read_error_witness :
    validateFeed "u" oC10 0 =
      ⟨trimSpace "u", "transient", "Error reading response: " ++ "connection reset", 0, 0⟩ :=
  c10_body_read_error "u" oC10 0 "connection reset" (.ok ⟨none, []⟩) rfl (by decide)

/-- C4: a first attempt that completes with a client-error status in
[400,500) other than 429 makes `validateFeed` return at once: result
`invalid` with message "HTTP status N" carrying the numeric code,
exactly one attempt in the trace and no backoff sleep (lines 70-77). -/
theorem c4_client_error_single_attempt (url : String) (o : FeedOracle) (t : Int)
    (s : Nat) (body : BodyModel) (hreq : o.reqErr = none)
    (hdur : (o.attempts 1).duration ≤ timeoutSeconds)
    (hout : (o.attempts 1).outcome = .response s body)
    (h4 : 400 ≤ s) (h5 : s < 500) (h9 : s ≠ 429) :
    validateFeed url o t = ⟨trimSpace url, "invalid", "HTTP status " ++ toString s, 0, 0⟩ ∧
    (runLoop o).trace.length = 1 ∧ (runLoop o).sleeps = [] := by
  have hdo : doResult 0 (o.attempts 1) = .response s body := by
    unfold doResult
    rw [if_pos (by omega), hout]
  have hloop : runLoop o = ⟨.earlyInvalid s, [(1, 0)], []⟩ :=
    loopGo_succ_early o.attempts 2 1 1 0 s body hdo h4 h5 h9
  refine ⟨?_, ?_, ?_⟩
  · simp [validateFeed, hreq, hloop]
  · rw [hloop]
    rfl
  · rw [hloop]

/-- Oracle for the C4 witness: a single instantaneous 404. -/
def oC4 : FeedOracle := ⟨none, fun _ => ⟨0, .response 404 ⟨none, .err "x"⟩⟩⟩

/-- C4 witness: a 404 yields `invalid` with "HTTP status 404" after one
attempt and no sleep. -/
theorem c4_client_error_single_attempt_witness :
    validateFeed "u" oC4 0 = ⟨trimSpace "u", "invalid", "HTTP status " ++ toString 404, 0, 0⟩ ∧
    (runLoop oC4).trace.length = 1 ∧ (runLoop oC4).sleeps = [] :=
  c4_client_error_single_attempt "u" oC4 0 404 ⟨none, .err "x"⟩ rfl (by decide) rfl
    (by decide) (by decide) (by decide)

/-- C5: when all three attempts complete with a retryable HTTP status
(429 or ≥ 500) and none with a transport error, the loop makes exactly
`maxRetries = 3` attempts and `validateFeed` returns `transient` with
the synthetic message "Failed after 3 attempts, last status: K" built
from the attempt cap and the last observed status (lines 70-107). -/
theorem c5_retryable_exhaustion (url : String) (o : FeedOracle) (t : Int)
    (s1 s2 s3 : Nat) (b1 b2 b3 : BodyModel) (hreq : o.reqErr = none)
    (h1 : (o.attempts 1).outcome = .response s1 b1)
    (h2 : (o.attempts 2).outcome = .response s2 b2)
    (h3 : (o.attempts 3).outcome = .response s3 b3)
    (r1 : s1 = 429 ∨ 500 ≤ s1) (r2 : s2 = 429 ∨ 500 ≤ s2) (r3 : s3 = 429 ∨ 500 ≤ s3)
    (hdur : (o.attempts 1).duration + (o.attempts 2).duration + (o.attempts 3).duration + 3
      ≤ timeoutSeconds) :
    validateFeed url o t =
      ⟨trimSpace url, "transient",
        "Failed after " ++ toString maxRetries ++ " attempts, last status: " ++ toString s3,
        0, 0⟩ ∧
    (runLoop o).trace.length = 3 := by
  have h200a : s1 ≠ 200 := by rcases r1 with h | h <;> omega
  have h200b : s2 ≠ 200 := by rcases r2 with h | h <;> omega
  have h200c : s3 ≠ 200 := by rcases r3 with h | h <;> omega
  have hnca : ¬(400 ≤ s1 ∧ s1 < 500 ∧ s1 ≠ 429) := by rcases r1 with h | h <;> omega
  have hncb : ¬(400 ≤ s2 ∧ s2 < 500 ∧ s2 ≠ 429) := by rcases r2 with h | h <;> omega
  have hncc : ¬(400 ≤ s3 ∧ s3 < 500 ∧ s3 ≠ 429) := by rcases r3 with h | h <;> omega
  have hdo1 : doResult 0 (o.attempts 1) = .response s1 b1 := by
    unfold doResult
    rw [if_pos (by omega), h1]
  have hfin1 : doFinish 0 (o.attempts 1) = 0 + (o.attempts 1).duration := by
    unfold doFinish
    rw [if_pos (by omega)]
  have hstep1 : runLoop o =
      ⟨(loopGo o.attempts 2 2 2 ((o.attempts 1).duration + 1)).outcome,
       (1, 0) :: (loopGo o.attempts 2 2 2 ((o.attempts 1).duration + 1)).trace,
       1 :: (loopGo o.attempts 2 2 2 ((o.attempts 1).duration + 1)).sleeps⟩ := by
    have h := loopGo_succ_status_retry o.attempts 2 1 1 0 s1 b1 hdo1 h200a hnca (by decide)
    rw [hfin1] at h
    unfold runLoop maxRetries
    simpa using h
  have hdo2 : doResult ((o.attempts 1).duration + 1) (o.attempts 2) = .response s2 b2 := by
    unfold doResult
    rw [if_pos (by omega), h2]
  have hfin2 : doFinish ((o.attempts 1).duration + 1) (o.attempts 2) =
      (o.attempts 1).duration + 1 + (o.attempts 2).duration := by
    unfold doFinish
    rw [if_pos (by omega)]
  have hstep2 : loopGo o.attempts 2 2 2 ((o.attempts 1).duration + 1) =
      ⟨(loopGo o.attempts 1 3 4
          ((o.attempts 1).duration + 1 + (o.attempts 2).duration + 2)).outcome,
       (2, (o.attempts 1).duration + 1) :: (loopGo o.attempts 1 3 4
          ((o.attempts 1).duration + 1 + (o.attempts 2).duration + 2)).trace,
       2 :: (loopGo o.attempts 1 3 4
          ((o.attempts 1).duration + 1 + (o.attempts 2).duration + 2)).sleeps⟩ := by
    have h := loopGo_succ_status_retry o.attempts 1 2 2 ((o.attempts 1).duration + 1)
      s2 b2 hdo2 h200b hncb (by decide)
    rw [hfin2] at h
    simpa using h
  have hdo3 : doResult ((o.attempts 1).duration + 1 + (o.attempts 2).duration + 2)
      (o.attempts 3) = .response s3 b3 := by
    unfold doResult
    rw [if_pos (by omega), h3]
  have hstep3 : loopGo o.attempts 1 3 4
      ((o.attempts 1).duration + 1 + (o.attempts 2).duration + 2) =
      ⟨.exitNon200 s3,
       [(3, (o.attempts 1).duration + 1 + (o.attempts 2).duration + 2)], []⟩ := by
    have h := loopGo_succ_status_last o.attempts 0 4
      ((o.attempts 1).duration + 1 + (o.attempts 2).duration + 2) s3 b3 hdo3 h200c hncc
    simpa [maxRetries] using h
  have hloop : runLoop o =
      ⟨.exitNon200 s3,
       [(1, 0), (2, (o.attempts 1).duration + 1),
        (3, (o.attempts 1).duration + 1 + (o.attempts 2).duration + 2)], [1, 2]⟩ := by
    rw [hstep1, hstep2, hstep3]
  refine ⟨?_, ?_⟩
  · simp [validateFeed, hreq, hloop]
  · rw [hloop]
    rfl

/-- Oracle for the C5 witness: HTTP 503 on every attempt. -/
def oC5 : FeedOracle := ⟨none, fun _ => ⟨0, .response 503 ⟨none, .err "x"⟩⟩⟩

/-- C5 witness: three 503s yield `transient` with the synthetic
exhaustion message after exactly three attempts. -/
theorem c5_retryable_exhaustion_witness :
    validateFeed "u" oC5 0 =
      ⟨trimSpace "u", "transient",
        "Failed after " ++ toString maxRetries ++ " attempts, last status: " ++ toString 503,
        0, 0⟩ ∧
    (runLoop oC5).trace.length = 3 :=
  c5_retryable_exhaustion "u" oC5 0 503 503 503 ⟨none, .err "x"⟩ ⟨none, .err "x"⟩
    ⟨none, .err "x"⟩ rfl rfl rfl rfl (Or.inr (by decide)) (Or.inr (by decide))
    (Or.inr (by decide)) (by decide)

/-- C6: first conjunct — a fetch that never completes within the
deadline (the first call alone outlasts the whole 30-second budget, so
every attempt ends in `context deadline exceeded`) yields `transient`
with the message that names the configured timeout value.  Second
conjunct — when all three attempts complete with transport errors whose
texts carry no context-cancellation marker, the last error's text is
passed through verbatim as the `transient` message (lines 50-100). -/
theorem c6_transport_failure_messages (url : String) (o : FeedOracle) (t : Int)
    (m1 m2 m3 : String) (hreq : o.reqErr = none) :
    (timeoutSeconds < (o.attempts 1).duration →
      validateFeed url o t =
        ⟨trimSpace url, "transient",
          "Request timed out after " ++ toString timeoutSeconds ++ " seconds", 0, 0⟩) ∧
    ((o.attempts 1).outcome = .transportErr m1 →
     (o.attempts 2).outcome = .transportErr m2 →
     (o.attempts 3).outcome = .transportErr m3 →
     isTimeoutMsg m1 = false → isTimeoutMsg m2 = false → isTimeoutMsg m3 = false →
     (o.attempts 1).duration + (o.attempts 2).duration + (o.attempts 3).duration + 3
       ≤ timeoutSeconds →
      validateFeed url o t = ⟨trimSpace url, "transient", m3, 0, 0⟩) := by
  constructor
  · intro hd1
    have hdo1 : doResult 0 (o.attempts 1) = .transportErr "context deadline exceeded" := by
      unfold doResult
      rw [if_neg (by omega)]
    have hfin1 : doFinish 0 (o.attempts 1) = timeoutSeconds := by
      unfold doFinish
      rw [if_neg (by omega)]
      exact Nat.zero_max timeoutSeconds
    have hstep1 : runLoop o =
        ⟨(loopGo o.attempts 2 2 2 (timeoutSeconds + 1)).outcome,
         (1, 0) :: (loopGo o.attempts 2 2 2 (timeoutSeconds + 1)).trace,
         1 :: (loopGo o.attempts 2 2 2 (timeoutSeconds + 1)).sleeps⟩ := by
      have h := loopGo_succ_err_retry o.attempts 2 1 1 0 "context deadline exceeded"
        hdo1 (by decide)
      rw [hfin1] at h
      unfold runLoop maxRetries
      simpa using h
    have hdo2 : doResult (timeoutSeconds + 1) (o.attempts 2) =
        .transportErr "context deadline exceeded" := by
      unfold doResult
      rw [if_neg (by omega)]
    have hfin2 : doFinish (timeoutSeconds + 1) (o.attempts 2) = timeoutSeconds + 1 := by
      unfold doFinish
      rw [if_neg (by omega)]
      exact max_eq_left (by omega)
    have hstep2 : loopGo o.attempts 2 2 2 (timeoutSeconds + 1) =
        ⟨(loopGo o.attempts 1 3 4 (timeoutSeconds + 3)).outcome,
         (2, timeoutSeconds + 1) :: (loopGo o.attempts 1 3 4 (timeoutSeconds + 3)).trace,
         2 :: (loopGo o.attempts 1 3 4 (timeoutSeconds + 3)).sleeps⟩ := by
      have h := loopGo_succ_err_retry o.attempts 1 2 2 (timeoutSeconds + 1)
        "context deadline exceeded" hdo2 (by decide)
      rw [hfin2] at h
      simpa using h
    have hdo3 : doResult (timeoutSeconds + 3) (o.attempts 3) =
        .transportErr "context deadline exceeded" := by
      unfold doResult
      rw [if_neg (by omega)]
    have hstep3 : loopGo o.attempts 1 3 4 (timeoutSeconds + 3) =
        ⟨.exitErr "context deadline exceeded", [(3, timeoutSeconds + 3)], []⟩ := by
      have h := loopGo_succ_err_last o.attempts 0 4 (timeoutSeconds + 3)
        "context deadline exceeded" hdo3
      simpa [maxRetries] using h
    have hloop : runLoop o =
        ⟨.exitErr "context deadline exceeded",
         [(1, 0), (2, timeoutSeconds + 1), (3, timeoutSeconds + 3)], [1, 2]⟩ := by
      rw [hstep1, hstep2, hstep3]
    have htm : isTimeoutMsg "context deadline exceeded" = true := by decide
    simp [validateFeed, hreq, hloop, htm]
  · intro h1 h2 h3 htm1 htm2 htm3 hdur
    have hdo1 : doResult 0 (o.attempts 1) = .transportErr m1 := by
      unfold doResult
      rw [if_pos (by omega), h1]
    have hfin1 : doFinish 0 (o.attempts 1) = 0 + (o.attempts 1).duration := by
      unfold doFinish
      rw [if_pos (by omega)]
    have hstep1 : runLoop o =
        ⟨(loopGo o.attempts 2 2 2 ((o.attempts 1).duration + 1)).outcome,
         (1, 0) :: (loopGo o.attempts 2 2 2 ((o.attempts 1).duration + 1)).trace,
         1 :: (loopGo o.attempts 2 2 2 ((o.attempts 1).duration + 1)).sleeps⟩ := by
      have h := loopGo_succ_err_retry o.attempts 2 1 1 0 m1 hdo1 (by decide)
      rw [hfin1] at h
      unfold runLoop maxRetries
      simpa using h
    have hdo2 : doResult ((o.attempts 1).duration + 1) (o.attempts 2) = .transportErr m2 := by
      unfold doResult
      rw [if_pos (by omega), h2]
    have hfin2 : doFinish ((o.attempts 1).duration + 1) (o.attempts 2) =
        (o.attempts 1).duration + 1 + (o.attempts 2).duration := by
      unfold doFinish
      rw [if_pos (by omega)]
    have hstep2 : loopGo o.attempts 2 2 2 ((o.attempts 1).duration + 1) =
        ⟨(loopGo o.attempts 1 3 4
            ((o.attempts 1).duration + 1 + (o.attempts 2).duration + 2)).outcome,
         (2, (o.attempts 1).duration + 1) :: (loopGo o.attempts 1 3 4
            ((o.attempts 1).duration + 1 + (o.attempts 2).duration + 2)).trace,
         2 :: (loopGo o.attempts 1 3 4
            ((o.attempts 1).duration + 1 + (o.attempts 2).duration + 2)).sleeps⟩ := by
      have h := loopGo_succ_err_retry o.attempts 1 2 2 ((o.attempts 1).duration + 1)
        m2 hdo2 (by decide)
      rw [hfin2] at h
      simpa using h
    have hdo3 : doResult ((o.attempts 1).duration + 1 + (o.attempts 2).duration + 2)
        (o.attempts 3) = .transportErr m3 := by
      unfold doResult
      rw [if_pos (by omega), h3]
    have hstep3 : loopGo o.attempts 1 3 4
        ((o.attempts 1).duration + 1 + (o.attempts 2).duration + 2) =
        ⟨.exitErr m3,
         [(3, (o.attempts 1).duration + 1 + (o.attempts 2).duration + 2)], []⟩ := by
      have h := loopGo_succ_err_last o.attempts 0 4
        ((o.attempts 1).duration + 1 + (o.attempts 2).duration + 2) m3 hdo3
      simpa [maxRetries] using h
    have hloop : runLoop o =
        ⟨.exitErr m3,
         [(1, 0), (2, (o.attempts 1).duration + 1),
          (3, (o.attempts 1).duration + 1 + (o.attempts 2).duration + 2)], [1, 2]⟩ := by
      rw [hstep1, hstep2, hstep3]
    simp [validateFeed, hreq, hloop, htm3]

/-- Oracle for the C6 timeout conjunct: the first call alone would take
40 seconds, past the whole deadline. -/
def oC6a : FeedOracle := ⟨none, fun _ => ⟨40, .response 200 ⟨none, .err "x"⟩⟩⟩

/-- Oracle for the C6 pass-through conjunct: every call completes
instantly with a plain connection error. -/
def oC6b : FeedOracle := ⟨none, fun _ => ⟨0, .transportErr "connection refused"⟩⟩

/-- C6 witness: both conjuncts at concrete oracles — the timed-out URL
reports the configured 30-second budget, the connection-refused URL
passes the raw error text through. -/
theorem c6_transport_failure_messages_witness :
    validateFeed "u" oC6a 0 =
      ⟨trimSpace "u", "transient",
        "Request timed out after " ++ toString timeoutSeconds ++ " seconds", 0, 0⟩ ∧
    validateFeed "u" oC6b 0 = ⟨trimSpace "u", "transient", "connection refused", 0, 0⟩ :=
  ⟨(c6_transport_failure_messages "u" oC6a 0 "" "" "" rfl).1 (by decide),
   (c6_transport_failure_messages "u" oC6b 0 "connection refused" "connection refused"
      "connection refused" rfl).2 rfl rfl rfl (by decide) (by decide) (by decide) (by decide)⟩

/-- C7: with HTTP 503 on attempts 1 and 2 and a 200 on attempt 3, the
loop stops at the first 200 — three attempts in the trace, no fourth —
having slept exactly the backoffs `[1, 2]` (so 2^(k-1) seconds before
retry k+1, and the wait before attempt 3 is at least the wait before
attempt 2), and the result is `valid` when the body reads and decodes
(lines 48-92 and 110-149). -/
theorem c7_success_on_third_attempt (url : String) (o : FeedOracle) (t : Int)
    (b1 b2 body : BodyModel) (feed : Feed) (hreq : o.reqErr = none)
    (h1 : (o.attempts 1).outcome = .response 503 b1)
    (h2 : (o.attempts 2).outcome = .response 503 b2)
    (h3 : (o.attempts 3).outcome = .response 200 body)
    (hread : body.readErr = none) (hparse : body.parse = .ok feed)
    (hdur : (o.attempts 1).duration + (o.attempts 2).duration + (o.attempts 3).duration + 3
      ≤ timeoutSeconds) :
    (runLoop o).outcome = .success body ∧
    (runLoop o).trace.length = 3 ∧
    (runLoop o).sleeps = [1, 2] ∧
    (validateFeed url o t).status = "valid" := by
  have hdo1 : doResult 0 (o.attempts 1) = .response 503 b1 := by
    unfold doResult
    rw [if_pos (by omega), h1]
  have hfin1 : doFinish 0 (o.attempts 1) = 0 + (o.attempts 1).duration := by
    unfold doFinish
    rw [if_pos (by omega)]
  have hstep1 : runLoop o =
      ⟨(loopGo o.attempts 2 2 2 ((o.attempts 1).duration + 1)).outcome,
       (1, 0) :: (loopGo o.attempts 2 2 2 ((o.attempts 1).duration + 1)).trace,
       1 :: (loopGo o.attempts 2 2 2 ((o.attempts 1).duration + 1)).sleeps⟩ := by
    have h := loopGo_succ_status_retry o.attempts 2 1 1 0 503 b1 hdo1 (by decide)
      (by decide) (by decide)
    rw [hfin1] at h
    unfold runLoop maxRetries
    simpa using h
  have hdo2 : doResult ((o.attempts 1).duration + 1) (o.attempts 2) = .response 503 b2 := by
    unfold doResult
    rw [if_pos (by omega), h2]
  have hfin2 : doFinish ((o.attempts 1).duration + 1) (o.attempts 2) =
      (o.attempts 1).duration + 1 + (o.attempts 2).duration := by
    unfold doFinish
    rw [if_pos (by omega)]
  have hstep2 : loopGo o.attempts 2 2 2 ((o.attempts 1).duration + 1) =
      ⟨(loopGo o.attempts 1 3 4
          ((o.attempts 1).duration + 1 + (o.attempts 2).duration + 2)).outcome,
       (2, (o.attempts 1).duration + 1) :: (loopGo o.attempts 1 3 4
          ((o.attempts 1).duration + 1 + (o.attempts 2).duration + 2)).trace,
       2 :: (loopGo o.attempts 1 3 4
          ((o.attempts 1).duration + 1 + (o.attempts 2).duration + 2)).sleeps⟩ := by
    have h := loopGo_succ_status_retry o.attempts 1 2 2 ((o.attempts 1).duration + 1)
      503 b2 hdo2 (by decide) (by decide) (by decide)
    rw [hfin2] at h
    simpa using h
  have hdo3 : doResult ((o.attempts 1).duration + 1 + (o.attempts 2).duration + 2)
      (o.attempts 3) = .response 200 body := by
    unfold doResult
    rw [if_pos (by omega), h3]
  have hstep3 : loopGo o.attempts 1 3 4
      ((o.attempts 1).duration + 1 + (o.attempts 2).duration + 2) =
      ⟨.success body,
       [(3, (o.attempts 1).duration + 1 + (o.attempts 2).duration + 2)], []⟩ := by
    have h := loopGo_succ_success o.attempts 0 3 4
      ((o.attempts 1).duration + 1 + (o.attempts 2).duration + 2) body hdo3
    simpa [maxRetries] using h
  have hloop : runLoop o =
      ⟨.success body,
       [(1, 0), (2, (o.attempts 1).duration + 1),
        (3, (o.attempts 1).duration + 1 + (o.attempts 2).duration + 2)], [1, 2]⟩ := by
    rw [hstep1, hstep2, hstep3]
  refine ⟨?_, ?_, ?_, ?_⟩
  · rw [hloop]
  · rw [hloop]
    rfl
  · rw [hloop]
  · simp [validateFeed, handleBody, classify, hreq, hloop, hread, hparse]

/-- Oracle for the C7 witness: 503, 503, then a healthy 200. -/
def oC7 : FeedOracle :=
  ⟨none, fun k => if k ≤ 2 then ⟨0, .response 503 ⟨none, .err "x"⟩⟩
    else ⟨0, .response 200 ⟨none, .ok ⟨some 5, [⟨some 5⟩]⟩⟩⟩⟩

/-- C7 witness. -/
theorem c7_success_on_third_attempt_witness :
    (runLoop oC7).outcome = .success ⟨none, .ok ⟨some 5, [⟨some 5⟩]⟩⟩ ∧
    (runLoop oC7).trace.length = 3 ∧
    (runLoop oC7).sleeps = [1, 2] ∧
    (validateFeed "u" oC7 0).status = "valid" :=
  c7_success_on_third_attempt "u" oC7 0 ⟨none, .err "x"⟩ ⟨none, .err "x"⟩
    ⟨none, .ok ⟨some 5, [⟨some 5⟩]⟩⟩ ⟨some 5, [⟨some 5⟩]⟩ rfl rfl rfl rfl rfl rfl (by decide)

/-- Oracle for the C2 counterexample: attempt 1 takes 4 seconds and gets
HTTP 503; every later attempt takes 5 seconds and gets a healthy 200. -/
def oC2 : FeedOracle :=
  ⟨none, fun k => if k = 1 then ⟨4, .response 503 ⟨none, .err "x"⟩⟩
    else ⟨5, .response 200 ⟨none, .ok ⟨some 5, [⟨some 5⟩]⟩⟩⟩⟩

/-- C2 counterexample: the claim — every attempt in the retry loop has
the full configured 30 seconds available from its own start — fails.
With the above oracle, attempt 2 starts at clock 5 (4 seconds spent in
attempt 1 plus the 1-second backoff sleep), and the context deadline
created once at line 35 leaves it only 25 seconds, not 30. -/
theorem c2_counterexample_per_attempt_budget :
    ¬ ∀ e ∈ (runLoop oC2).trace, deadlineAvailable e = (timeoutSeconds : Int) := by
  decide

/-- C2 amended: the 30-second deadline is created once per validation,
before the retry loop, and is shared by all attempts.  The first
attempt starts at clock 0 with the full 30 seconds available; every
later attempt starts strictly later (the previous attempt's elapsed
time plus a backoff sleep of at least one second), so the budget left
for an attempt starting at clock `c` is `30 - c`, and any attempt after
the first has strictly less than the full 30 seconds. -/
theorem c2_amended_shared_deadline (o : FeedOracle) :
    (runLoop o).trace.head? = some (1, 0) ∧
    List.Chain' (fun a b : Nat × Nat => a.1 + 1 = b.1 ∧ a.2 < b.2) (runLoop o).trace ∧
    (∀ e ∈ (runLoop o).trace, deadlineAvailable e = (timeoutSeconds : Int) - (e.2 : Int)) ∧
    (∀ e ∈ (runLoop o).trace, 2 ≤ e.1 → deadlineAvailable e < (timeoutSeconds : Int)) := by
  obtain ⟨hch, hhd⟩ := loopGo_trace_shape o.attempts maxRetries 1 1 0 (le_refl 1)
  refine ⟨?_, hch, fun e _ => rfl, fun e he h2 => ?_⟩
  · rcases hhd with h0 | h
    · exact absurd h0 (by decide)
    · exact h
  · rcases loopGo_trace_mem o.attempts maxRetries 1 1 0 (le_refl 1) e he with
      ⟨ha, hc⟩ | ⟨ha, hc⟩
    · omega
    · unfold deadlineAvailable
      omega

/-- C2 witness for the amended theorem: in the counterexample run,
attempt 2 starts at clock 5, its remaining budget is 30 − 5 and hence
strictly below the full 30 seconds. -/
theorem c2_amended_shared_deadline_witness :
    deadlineAvailable (2, 5) = (timeoutSeconds : Int) - ((5 : Nat) : Int) ∧
    deadlineAvailable (2, 5) < (timeoutSeconds : Int) :=
  ⟨(c2_amended_shared_deadline oC2).2.2.1 (2, 5) (by decide),
   (c2_amended_shared_deadline oC2).2.2.2 (2, 5) (by decide) (by decide)⟩

end FeedVal
